import Mathlib

/-!
Verification of the CTFdPy request/response contract layer.

The definitions below are a shallow embedding of the Python source:
`ctfdpy/api/api.py` (status classification and envelope unwrap),
`ctfdpy/api/files.py` and `ctfdpy/api/hints.py` (list-query validation,
delete, decoding adapters), `ctfdpy/models/files.py` (file entities and the
create-file payload with its validators and serializer),
`ctfdpy/models/model.py` (payload dump) and `ctfdpy/utils.py` (the
admin-only gate and its process-wide non-admin cache).
-/

namespace CTFdPy

/-- The uniform wire envelope, `APIResponse` in `ctfdpy/api/api.py`:
`data`, `success`, `errors`, `message`.  The payload type is a parameter;
`errors` is modelled as an optional list of strings. -/
structure Envelope (α : Type) where
  data : Option α
  success : Bool
  errors : Option (List String)
  message : Option String
deriving DecidableEq

/-- An HTTP response as the transport hands it to `handle_response`:
a status code and the result of `response.json()` (`none` when the body
does not parse as an envelope). -/
structure HttpResponse (α : Type) where
  status_code : Nat
  json : Option (Envelope α)
deriving DecidableEq

/-- The argument of the bare `Exception` raised on a 2xx envelope with
`success == false`: `data.get ("errors") or data["message"]` is either the
(truthy) errors list or the message value. -/
inductive ExcArg where
  | errList (es : List String)
  | msgVal (m : Option String)
deriving DecidableEq

/-- The exception taxonomy of `ctfdpy/exceptions.py`, plus the two raises
that do not use it: the bare builtin `Exception` on a failed envelope
(`plainExc`) and the JSON decode error `response.json()` itself raises on a
malformed 2xx body (`jsonDecodeError`).  The four status-mapped
constructors carry the original response, as `CTFdpyRequestException`
stores `response`. -/
inductive PyExc (α : Type) where
  | badRequest (response : HttpResponse α)
  | unauthorized (response : HttpResponse α)
  | notFound (response : HttpResponse α)
  | requestError (response : HttpResponse α)
  | adminOnly (msg : String) (response : Option (HttpResponse α))
  | modelValidation (msg : String)
  | valueError (msg : String)
  | jsonDecodeError
  | plainExc (arg : ExcArg)
deriving DecidableEq

/-- Lines 106-110 of `ctfdpy/api/api.py`: parse the body, and on
`success == false` raise the bare `Exception` carrying
`data.get ("errors") or data["message"]` (a present but empty errors list
is falsy in Python and falls through to the message). -/
def unwrapEnvelope (r : HttpResponse α) : Except (PyExc α) (Envelope α) :=
  match r.json with
  | none => .error .jsonDecodeError
  | some env =>
    if env.success then
      .ok env
    else
      .error (.plainExc (match env.errors with
        | some es => if es.isEmpty then .msgVal env.message else .errList es
        | none => .msgVal env.message))

/-- `API.handle_response` in `ctfdpy/api/api.py`: the `match` on
`response.status_code` in source order (2xx passes through to the envelope
unwrap, 400, 403, 404, catch-all), each failure carrying the response. -/
def handleResponse (r : HttpResponse α) : Except (PyExc α) (Envelope α) :=
  if 200 ≤ r.status_code ∧ r.status_code < 300 then
    unwrapEnvelope r
  else if r.status_code = 400 then
    .error (.badRequest r)
  else if r.status_code = 403 then
    .error (.unauthorized r)
  else if r.status_code = 404 then
    .error (.notFound r)
  else
    .error (.requestError r)

/-- Whether an `Except` value is a success. -/
def exceptIsOk : Except ε α → Bool
  | .ok _ => true
  | .error _ => false

/-- Whether a dispatch outcome failed with the generic
`CTFdpyRequestException` constructor. -/
def resultIsRequestError : Except (PyExc α) β → Bool
  | .error (.requestError _) => true
  | _ => false

/-- `FilesAPI.delete` in `ctfdpy/api/files.py`: run the response through
`handle_response` and return `result["success"]`. -/
def FilesAPI.delete (r : HttpResponse α) : Except (PyExc α) Bool :=
  match handleResponse r with
  | .error e => .error e
  | .ok env => .ok env.success

/-- `HintsAPI.delete` in `ctfdpy/api/hints.py`: run the response through
`handle_response` and return `result["success"]`. -/
def HintsAPI.delete (r : HttpResponse α) : Except (PyExc α) Bool :=
  match handleResponse r with
  | .error e => .error e
  | .ok env => .ok env.success

/-- The guard `q is None != field is None` from `FilesAPI.list` and
`HintsAPI.list`.  In Python `is`, `!=`, `is` chain, so the expression is
`(q is None) and (None != field) and (field is None)` - the last two
conjuncts are contradictory, which this embedding records faithfully. -/
def qFieldChainedCheck (q field : Option String) : Bool :=
  q.isNone && field.isSome && field.isNone

/-- A query-parameter value as placed into the `params` dict: a string, an
integer, or Python `None`. -/
inductive ParamVal where
  | pstr (s : String)
  | pint (n : Int)
  | pnone
deriving DecidableEq

/-- `FileType` from `ctfdpy/models/files.py`. -/
inductive FileType where
  | standard
  | challenge
  | page
deriving DecidableEq

/-- The `StrEnum` value of a `FileType`. -/
def FileType.toWire : FileType → String
  | .standard => "standard"
  | .challenge => "challenge"
  | .page => "page"

/-- `FilesAPI.list` in `ctfdpy/api/files.py` up to the request: the
(unreachable) `q`/`field` guard, then the `params` dict built in source
order; `params["field"] = field` stores `field` as-is, including `None`.
The returned value is the query sent with the GET request. -/
def FilesAPI.list (type : Option FileType) (location q field : Option String) :
    Except (PyExc Unit) (List (String × ParamVal)) :=
  if qFieldChainedCheck q field then
    .error (.valueError "Both q and field must be provided")
  else
    .ok ((match type with | some t => [("type", ParamVal.pstr t.toWire)] | none => [])
      ++ (match location with | some l => [("location", ParamVal.pstr l)] | none => [])
      ++ (match q with
          | some qv =>
            [("q", ParamVal.pstr qv),
             ("field", match field with | some fv => ParamVal.pstr fv | none => ParamVal.pnone)]
          | none => []))

/-- `HintsAPI.list` in `ctfdpy/api/hints.py` up to the request: the same
(unreachable) `q`/`field` guard, then the `params` dict in source order.
The hint type enum lives in a module outside this embedding, so the `type`
filter is carried as its wire string. -/
def HintsAPI.list (type : Option String) (challenge_id : Option Int)
    (content : Option String) (cost : Option Int) (q field : Option String) :
    Except (PyExc Unit) (List (String × ParamVal)) :=
  if qFieldChainedCheck q field then
    .error (.valueError "Both q and field must be provided or neither must be provided")
  else
    .ok ((match type with | some t => [("type", ParamVal.pstr t)] | none => [])
      ++ (match challenge_id with | some c => [("challenge_id", ParamVal.pint c)] | none => [])
      ++ (match content with | some c => [("content", ParamVal.pstr c)] | none => [])
      ++ (match cost with | some c => [("cost", ParamVal.pint c)] | none => [])
      ++ (match q with
          | some qv =>
            [("q", ParamVal.pstr qv),
             ("field", match field with | some fv => ParamVal.pstr fv | none => ParamVal.pnone)]
          | none => []))

/-- The fixed Flask read-protection literal compared against the 403 body
message in `admin_only` (`ctfdpy/utils.py`). -/
def flaskForbiddenMsg : String :=
  "You don\x27t have the permission to access the requested resource. It is either read-protected or not readable by the server."

/-- Outcome of one pass through the `admin_only` wrapper: the non-admin
cache after the call, the returned or raised result, and whether the
wrapped function was invoked at all. -/
structure GateResult (α : Type) where
  cache : List String
  result : Except (PyExc Unit) α
  invoked : Bool

/-- `admin_only` from `ctfdpy/utils.py`, one call: short-circuit when the
credential is already in `_non_admins`; otherwise invoke the wrapped
function; on `CTFdpyUnauthorizedException`, if the parsed body message
equals the Flask literal, raise `CTFdpyAdminOnlyException` (the
`_non_admins.add` on this path is unreachable because the raise precedes
it); otherwise add the credential and re-raise.  Other outcomes pass
through with the cache untouched. -/
def admin_only_call (cache : List String) (credentials : String)
    (f : Unit → Except (PyExc Unit) α) : GateResult α :=
  if credentials ∈ cache then
    ⟨cache, .error (.adminOnly "Admin user required" none), false⟩
  else
    match f () with
    | .ok v => ⟨cache, .ok v, true⟩
    | .error (.unauthorized resp) =>
      match resp.json with
      | some env =>
        if env.message = some flaskForbiddenMsg then
          ⟨cache, .error (.adminOnly "Admin user required" (some resp)), true⟩
        else
          ⟨credentials :: cache, .error (.unauthorized resp), true⟩
      | none => ⟨credentials :: cache, .error (.unauthorized resp), true⟩
    | .error e => ⟨cache, .error e, true⟩

/-- `FileContent` from `ctfdpy/models/files.py`: raw bytes, a string, or
an opened binary reader (kept as an opaque handle). -/
inductive FileContent where
  | bytes (bs : List Nat)
  | str (s : String)
  | reader (handle : Nat)
deriving DecidableEq

/-- `MultipartFileTypes` from `ctfdpy/models/files.py`: bare content or a
tuple of length two to four `(filename, file, content_type, headers)`. -/
inductive MultipartFileSpec where
  | content (c : FileContent)
  | withName (filename : Option String) (c : FileContent)
  | withType (filename : Option String) (c : FileContent) (content_type : Option String)
  | withHeaders (filename : Option String) (c : FileContent) (content_type : Option String)
      (headers : List (String × String))
deriving DecidableEq

/-- The validated field values of `CreateFilePayload`
(`ctfdpy/models/files.py`). -/
structure CreateFilePayload where
  files : List MultipartFileSpec
  type : FileType := .standard
  challenge_id : Option Int := none
  page_id : Option Int := none
  location : Option String := none
deriving DecidableEq

/-- The `check_file_type` model validator of `CreateFilePayload`: the
`match self.type` enforcing the type / id matching table, with the source
error messages. -/
def check_file_type (p : CreateFilePayload) : Except String CreateFilePayload :=
  match p.type with
  | .standard =>
    if p.challenge_id.isSome || p.page_id.isSome then
      .error "Challenge ID and page ID must be None for standard files"
    else .ok p
  | .challenge =>
    if p.challenge_id.isNone then
      .error "Challenge ID must be provided for challenge files"
    else if p.page_id.isSome then
      .error "Page ID must be None for challenge files"
    else .ok p
  | .page =>
    if p.page_id.isNone then
      .error "Page ID must be provided for page files"
    else if p.challenge_id.isSome then
      .error "Challenge ID must be None for page files"
    else .ok p

/-- The `check_file_count` model validator of `CreateFilePayload`: at
least one file, and `location` only with a single file. -/
def check_file_count (p : CreateFilePayload) : Except String CreateFilePayload :=
  if p.files.length = 0 then
    .error "At least one file must be provided"
  else if 1 < p.files.length ∧ p.location.isSome then
    .error "Location cannot be specified when multiple files are provided"
  else .ok p

/-- The two `mode="after"` model validators in definition order:
`check_file_type`, then `check_file_count`; the second runs only when the
first succeeded. -/
def CreateFilePayload.validate (p : CreateFilePayload) : Except String CreateFilePayload :=
  (check_file_type p).bind check_file_count

/-- The keyword arguments a caller can hand to the `CreateFilePayload`
constructor.  The outer `Option` records whether the keyword was passed at
all, the inner one carries an explicit Python `None`. -/
structure CreateFileKwargs where
  files : List MultipartFileSpec
  type : Option (Option FileType) := none
  challenge_id : Option (Option Int) := none
  challenge : Option (Option Int) := none
  page_id : Option (Option Int) := none
  page : Option (Option Int) := none
  location : Option (Option String) := none

/-- Pydantic construction of `CreateFilePayload`.  `challenge_id` declares
`validation_alias=AliasChoices ("challenge_id", "challenge")`, so either
keyword is accepted and `challenge_id` wins when both are present.  The
`page_id` field instead passes `validate_alias=...` - a typo for
`validation_alias`, an argument pydantic does not recognise - so the
`page` alias is never registered and, the model being `extra="forbid"`, a
supplied `page` keyword is rejected as an extra input.  An explicit
`type=None` fails enum validation; an omitted `type` defaults to
`standard`.  Field validation is followed by the two model validators. -/
def CreateFilePayload.construct (k : CreateFileKwargs) : Except String CreateFilePayload :=
  if k.page.isSome then
    .error "Extra inputs are not permitted"
  else
    match k.type with
    | some none => .error "Input should be a FileType"
    | _ =>
      CreateFilePayload.validate
        { files := k.files
          type := (k.type.getD (some .standard)).getD .standard
          challenge_id :=
            match k.challenge_id with
            | some v => v
            | none => k.challenge.getD none
          page_id := k.page_id.getD none
          location := k.location.getD none }

/-- Python `a or b` on `int | None` operands: `None` and `0` are falsy. -/
def pyOrOptInt : Option Int → Option Int → Option Int
  | some a, b => if a = 0 then b else some a
  | none, b => b

/-- The keyword arguments `FilesAPI.create` (`ctfdpy/api/files.py`) passes
to `CreateFilePayload` when no ready payload is supplied:
`challenge_id=challenge_id or challenge`, `page_id=page_id or page`, every
canonical keyword always present. -/
def FilesAPI.createKwargs (files : List MultipartFileSpec) (type : Option FileType)
    (challenge_id challenge page_id page : Option Int) (location : Option String) :
    CreateFileKwargs :=
  { files := files
    type := some type
    challenge_id := some (pyOrOptInt challenge_id challenge)
    challenge := none
    page_id := some (pyOrOptInt page_id page)
    page := none
    location := some location }

/-- A scalar form-field value of the multipart request. -/
inductive FormVal where
  | s (v : String)
  | i (v : Int)
deriving DecidableEq

/-- The `@model_serializer` `_model_ser` of `CreateFilePayload`: every
file becomes one part named `"file"` in input order, and the `data` dict
gets `type` plus each of `challenge_id`, `page_id`, `location` that is not
`None`, in that insertion order. -/
def CreateFilePayload.model_ser (p : CreateFilePayload) :
    List (String × MultipartFileSpec) × List (String × FormVal) :=
  let d := [("type", FormVal.s p.type.toWire)]
  let d := d ++ (match p.challenge_id with
    | some c => [("challenge_id", FormVal.i c)]
    | none => [])
  let d := d ++ (match p.page_id with
    | some pid => [("page_id", FormVal.i pid)]
    | none => [])
  let d := d ++ (match p.location with
    | some l => [("location", FormVal.s l)]
    | none => [])
  (p.files.map (fun f => ("file", f)), d)

/-- `CreatePayloadModel.to_payload` (`ctfdpy/models/model.py`) calls
`model_dump(mode="json", exclude_unset=True)`; with a plain
`@model_serializer` in place the dump is exactly the serializer output. -/
def CreateFilePayload.to_payload (p : CreateFilePayload) :
    List (String × MultipartFileSpec) × List (String × FormVal) :=
  CreateFilePayload.model_ser p

/-- A raw wire file object as handed to `file_adapter`: each recognised
key either absent or carrying a value of its declared type. -/
structure RawFile where
  type : Option String := none
  id : Option Int := none
  location : Option String := none
  sha1sum : Option String := none
  challenge_id : Option Int := none
  challenge : Option Int := none
  page_id : Option Int := none
  page : Option Int := none
deriving DecidableEq

/-- The decoded file entity: `StandardFile`, `ChallengeFile` or
`PageFile` from `ctfdpy/models/files.py`. -/
inductive File where
  | standard (id : Int) (location : String) (sha1sum : String)
  | challenge (id : Int) (location : String) (sha1sum : String) (challenge_id : Int)
  | page (id : Int) (location : String) (sha1sum : String) (page_id : Int)
deriving DecidableEq

/-- `file_adapter` from `ctfdpy/api/files.py`: a union discriminated by
the `type` tag.  Each variant requires the base fields; `ChallengeFile`
reads its id through `AliasChoices ("challenge_id", "challenge")` (first
key present wins) and `PageFile` through
`AliasChoices ("page_id", "page")`. -/
def decodeFile (raw : RawFile) : Except String File :=
  match raw.type with
  | none => .error "Unable to extract tag using discriminator"
  | some "standard" =>
    match raw.id, raw.location, raw.sha1sum with
    | some i, some l, some s => .ok (.standard i l s)
    | _, _, _ => .error "Field required"
  | some "challenge" =>
    match raw.id, raw.location, raw.sha1sum, raw.challenge_id <|> raw.challenge with
    | some i, some l, some s, some c => .ok (.challenge i l s c)
    | _, _, _, _ => .error "Field required"
  | some "page" =>
    match raw.id, raw.location, raw.sha1sum, raw.page_id <|> raw.page with
    | some i, some l, some s, some pid => .ok (.page i l s pid)
    | _, _, _, _ => .error "Field required"
  | some _ => .error "Input tag does not match any of the expected tags"

/-- A raw wire hint object as handed to `hint_adapter`. -/
structure RawHint where
  id : Option Int := none
  type : Option String := none
  challenge_id : Option Int := none
  content : Option String := none
  cost : Option Int := none
  requirements : Option (List Int) := none
deriving DecidableEq

/-- Modelled from the spec: the three hint shapes of `ctfdpy/models/hints.py`,
a module not present in the sources at hand - full `Hint` (all fields
including `content` and the edit-capable fields), `UnlockedHint` (content
visible, no edit metadata) and `LockedHint` (content withheld). -/
inductive HintVariant where
  | full (id : Int) (challenge_id : Int) (content : String) (cost : Int)
      (type : String) (requirements : Option (List Int))
  | unlocked (id : Int) (content : String) (cost : Int)
  | locked (id : Int) (cost : Int)
deriving DecidableEq

/-- The shape tag of a decoded hint variant. -/
def HintVariant.tag : HintVariant → String
  | .full _ _ _ _ _ _ => "hint"
  | .unlocked _ _ _ => "unlocked_hint"
  | .locked _ _ => "locked_hint"

/-- Modelled from the spec: the required-field set of the full `Hint`
shape - `content` plus the edit-capable fields (`challenge_id`, `type`)
over the base `id` and `cost`. -/
def hintMatchesFull (r : RawHint) : Bool :=
  r.id.isSome && r.cost.isSome && r.content.isSome && r.challenge_id.isSome && r.type.isSome

/-- Modelled from the spec: the required-field set of `UnlockedHint` -
`content` over the base `id` and `cost`, no edit metadata. -/
def hintMatchesUnlocked (r : RawHint) : Bool :=
  r.id.isSome && r.cost.isSome && r.content.isSome

/-- Modelled from the spec: the required-field set of `LockedHint` - only
the base `id` and cost/requirement fields, no `content`. -/
def hintMatchesLocked (r : RawHint) : Bool :=
  r.id.isSome && r.cost.isSome

/-- Modelled from the spec: `hint_adapter` decoding
(`ctfdpy/api/hints.py`, with the variant models of `ctfdpy/models/hints.py`
not present in the sources at hand) - try full `Hint`, then
`UnlockedHint`, then `LockedHint`, returning the first variant whose
required-field set the input satisfies, and fail when none matches. -/
def decodeHint (r : RawHint) : Except String HintVariant :=
  match r.id, r.cost with
  | some i, some co =>
    match r.content with
    | some c =>
      match r.challenge_id, r.type with
      | some ch, some t => .ok (.full i ch c co t r.requirements)
      | _, _ => .ok (.unlocked i c co)
    | none => .ok (.locked i co)
  | _, _ => .error "Input did not match any hint variant"

/-- The shape tag of a hint decoding outcome, `none` on failure. -/
def variantTag : Except String HintVariant → Option String
  | .ok v => some v.tag
  | .error _ => none

/-! Concrete fixtures used by the witnesses and counterexamples. -/

/-- A 2xx envelope whose `success` flag is false and whose `errors` list
is `["bad"]`. -/
def envBad : Envelope Unit := ⟨none, false, some ["bad"], none⟩

/-- A status-200 response carrying `envBad`. -/
def respBad : HttpResponse Unit := ⟨200, some envBad⟩

/-- A 403 response whose body message is the Flask read-protection
literal. -/
def respMatch403 : HttpResponse Unit :=
  ⟨403, some ⟨none, false, none, some flaskForbiddenMsg⟩⟩

/-- A wrapped operation that always fails with `Unauthorized` carrying
`respMatch403`. -/
def opMatch403 : Unit → Except (PyExc Unit) Unit :=
  fun _ => .error (.unauthorized respMatch403)

/-- A status-200 response with a successful envelope. -/
def respSuccess : HttpResponse Unit := ⟨200, some ⟨none, true, none, none⟩⟩

/-- A status-400 response. -/
def resp400 : HttpResponse Unit := ⟨400, none⟩

/-- One multipart file spec, `("a.txt", b"x")`. -/
def aFile : MultipartFileSpec := .withName (some "a.txt") (.bytes [120])

/-- The scenario payload: one file, type challenge, challenge id 1. -/
def payloadEx : CreateFilePayload :=
  { files := [aFile], type := .challenge, challenge_id := some 1 }

/-- A raw challenge file carrying both `challenge_id` and its alias. -/
def rawChallengeBoth : RawFile :=
  { type := some "challenge", id := some 1, location := some "loc",
    sha1sum := some "sha", challenge_id := some 2, challenge := some 9 }

/-- A raw hint carrying every field of the full `Hint` shape. -/
def rawHintFull : RawHint :=
  { id := some 1, type := some "standard", challenge_id := some 2,
    content := some "c", cost := some 10 }

/-- C1. At the failing input - empty cache, fresh credential, wrapped
operation failing 403 with the Flask read-protection literal - the gate
fails `AdminOnlyRequired` but leaves the cache empty (the insertion is
unreachable on this path), so a second call with the same credential
invokes the operation again instead of short-circuiting. -/
theorem c1_admin_gate_match_does_not_cache :
    (admin_only_call [] "token-1" opMatch403).result
        = .error (.adminOnly "Admin user required" (some respMatch403))
    ∧ (admin_only_call [] "token-1" opMatch403).cache = []
    ∧ (admin_only_call ((admin_only_call [] "token-1" opMatch403).cache)
        "token-1" opMatch403).invoked = true :=
  ⟨rfl, rfl, rfl⟩

/-- C2 counterexample. On a 2xx body with `success:false, errors:["bad"]`
the dispatcher fails with the bare builtin `Exception` carrying `["bad"]`,
not with the library `RequestError`. -/
theorem c2_counterexample_plain_exception :
    handleResponse respBad = .error (.plainExc (.errList ["bad"]))
    ∧ resultIsRequestError (handleResponse respBad) = false :=
  ⟨rfl, rfl⟩

/-- C2 (amended). For every 2xx response whose parsed envelope has
`success == false`, dispatch fails by raising a plain builtin `Exception`
carrying the envelope errors when present and non-empty, else the
envelope message. -/
theorem c2_success_false_raises (s : Nat) (env : Envelope Unit)
    (h1 : 200 ≤ s) (h2 : s < 300) (h3 : env.success = false) :
    handleResponse ⟨s, some env⟩ =
      .error (.plainExc (match env.errors with
        | some es => if es.isEmpty then .msgVal env.message else .errList es
        | none => .msgVal env.message)) := by
  unfold handleResponse unwrapEnvelope
  rw [if_pos ⟨h1, h2⟩]
  simp [h3]

/-- C2 witness: a 2xx `success:false` envelope with no errors list fails
carrying the message. -/
theorem c2_success_false_raises_witness :
    handleResponse (⟨200, some ⟨none, false, none, some "boom"⟩⟩ : HttpResponse Unit) =
      .error (.plainExc (.msgVal (some "boom"))) :=
  c2_success_false_raises 200 ⟨none, false, none, some "boom"⟩ (by decide) (by decide) rfl

/-- C3. Supplying `q` without `field` is not rejected: the chained guard
`q is None != field is None` is always false, so both list endpoints
proceed to send the request (with the lone `q` in the query and `field`
sent as `None`) instead of failing `ValueError`. -/
theorem c3_lone_q_not_rejected :
    qFieldChainedCheck (some "foo") none = false
    ∧ FilesAPI.list none none (some "foo") none =
        .ok [("q", ParamVal.pstr "foo"), ("field", ParamVal.pnone)]
    ∧ HintsAPI.list none none none none (some "foo") none =
        .ok [("q", ParamVal.pstr "foo"), ("field", ParamVal.pnone)]
    ∧ (∀ q field : Option String, qFieldChainedCheck q field = false) := by
  refine ⟨rfl, rfl, rfl, ?_⟩
  intro q field
  cases q <;> cases field <;> rfl

/-- C5. Status classification in source order: 2xx proceeds to the
envelope unwrap, 400 fails `BadRequest`, 403 fails `Unauthorized`, 404
fails `NotFound`, anything else fails the generic `RequestError`, each
failure carrying the original response. -/
theorem c5_status_classification (r : HttpResponse Unit) :
    (200 ≤ r.status_code ∧ r.status_code < 300 → handleResponse r = unwrapEnvelope r)
    ∧ (r.status_code = 400 → handleResponse r = .error (.badRequest r))
    ∧ (r.status_code = 403 → handleResponse r = .error (.unauthorized r))
    ∧ (r.status_code = 404 → handleResponse r = .error (.notFound r))
    ∧ (¬(200 ≤ r.status_code ∧ r.status_code < 300) → r.status_code ≠ 400 →
        r.status_code ≠ 403 → r.status_code ≠ 404 →
        handleResponse r = .error (.requestError r)) := by
  unfold handleResponse
  refine ⟨?_, ?_, ?_, ?_, ?_⟩
  · intro h
    rw [if_pos h]
  · intro h
    rw [if_neg (by omega), if_pos h]
  · intro h
    rw [if_neg (by omega), if_neg (by omega), if_pos h]
  · intro h
    rw [if_neg (by omega), if_neg (by omega), if_neg (by omega), if_pos h]
  · intro h1 h2 h3 h4
    rw [if_neg h1, if_neg h2, if_neg h3, if_neg h4]

/-- C5 witness: a 400 response maps to `BadRequest` carrying it. -/
theorem c5_status_classification_witness :
    handleResponse resp400 = .error (.badRequest resp400) :=
  (c5_status_classification resp400).2.1 rfl

/-- C9. The `page` alias keyword is rejected by `CreateFilePayload`
construction (the field declares `validate_alias`, a typo for
`validation_alias`, so with `extra="forbid"` the alias is an extra input),
while the same value under `page_id` succeeds; the `challenge` alias works
and `challenge_id` wins when both are given. -/
theorem c9_page_alias_rejected :
    CreateFilePayload.construct
        { files := [aFile], type := some (some .page), page := some (some 1) }
      = .error "Extra inputs are not permitted"
    ∧ CreateFilePayload.construct
        { files := [aFile], type := some (some .page), page_id := some (some 1) }
      = .ok { files := [aFile], type := .page, page_id := some 1 }
    ∧ CreateFilePayload.construct
        { files := [aFile], type := some (some .challenge), challenge := some (some 7) }
      = .ok { files := [aFile], type := .challenge, challenge_id := some 7 }
    ∧ CreateFilePayload.construct
        { files := [aFile], type := some (some .challenge),
          challenge_id := some (some 3), challenge := some (some 7) }
      = .ok { files := [aFile], type := .challenge, challenge_id := some 3 } :=
  ⟨rfl, rfl, rfl, rfl⟩

/-- C10. Whenever the delete operation on files or hints returns normally,
the boolean it returns is `true`: the dispatcher only hands back envelopes
whose `success` flag is set. -/
theorem c10_delete_returns_true (r : HttpResponse Unit) (b : Bool) :
    (FilesAPI.delete r = .ok b → b = true)
    ∧ (HintsAPI.delete r = .ok b → b = true) := by
  have key : ∀ env : Envelope Unit, handleResponse r = .ok env → env.success = true := by
    intro env h
    unfold handleResponse unwrapEnvelope at h
    split at h
    · split at h
      · exact absurd h (by simp)
      · split at h
        · rename_i hs
          injection h with h
          rw [← h]
          exact hs
        · exact absurd h (by simp)
    · split at h
      · exact absurd h (by simp)
      · split at h
        · exact absurd h (by simp)
        · split at h
          · exact absurd h (by simp)
          · exact absurd h (by simp)
  constructor
  · intro hdel
    unfold FilesAPI.delete at hdel
    cases hE : handleResponse r with
    | error e => rw [hE] at hdel; exact absurd hdel (by simp)
    | ok env =>
      rw [hE] at hdel
      injection hdel with hb
      rw [← hb]
      exact key env hE
  · intro hdel
    unfold HintsAPI.delete at hdel
    cases hE : handleResponse r with
    | error e => rw [hE] at hdel; exact absurd hdel (by simp)
    | ok env =>
      rw [hE] at hdel
      injection hdel with hb
      rw [← hb]
      exact key env hE

/-- C10 witness: on a successful envelope the file delete returns
`.ok true`. -/
theorem c10_delete_returns_true_witness :
    FilesAPI.delete respSuccess = .ok true ∧ true = true :=
  ⟨rfl, (c10_delete_returns_true respSuccess true).1 rfl⟩

/-- C4. `CreateFilePayload` validation succeeds exactly when the file list
is non-empty, the `(type, challenge_id, page_id)` combination satisfies
the matching table, and `location` is absent whenever more than one file
is supplied. -/
theorem c4_create_file_payload_iff (p : CreateFilePayload) :
    exceptIsOk (CreateFilePayload.validate p) = true ↔
      (p.files ≠ []
        ∧ (match p.type with
            | .standard => p.challenge_id = none ∧ p.page_id = none
            | .challenge => p.challenge_id ≠ none ∧ p.page_id = none
            | .page => p.page_id ≠ none ∧ p.challenge_id = none)
        ∧ (1 < p.files.length → p.location = none)) := by
  obtain ⟨files, ty, cid, pid, loc⟩ := p
  cases ty <;> cases cid <;> cases pid <;> cases loc <;>
    rcases files with _ | ⟨a, _ | ⟨b, t⟩⟩ <;>
      simp +arith [CreateFilePayload.validate, check_file_type, check_file_count,
        Except.bind, exceptIsOk]

/-- C4 witness: `type=standard` with `challenge_id=5` fails, the matching
challenge payload succeeds. -/
theorem c4_create_file_payload_iff_witness :
    exceptIsOk (CreateFilePayload.validate
      { files := [aFile], type := .standard, challenge_id := some 5 }) = false
    ∧ exceptIsOk (CreateFilePayload.validate
      { files := [aFile], type := .challenge, challenge_id := some 5 }) = true := by
  constructor
  · have h := c4_create_file_payload_iff
      { files := [aFile], type := .standard, challenge_id := some 5 }
    revert h
    decide
  · exact (c4_create_file_payload_iff
      { files := [aFile], type := .challenge, challenge_id := some 5 }).mpr (by decide)

/-- C6. File decoding dispatches on the `type` tag: decoding fails when
the tag is absent or unrecognised; each variant succeeds exactly when its
required fields are present, the association id being accepted under the
canonical key or its alias; and `challenge_id` wins over `challenge` when
both are present. -/
theorem c6_decode_file_dispatch (raw : RawFile) :
    (raw.type = none → exceptIsOk (decodeFile raw) = false)
    ∧ (∀ t, raw.type = some t → t ≠ "standard" → t ≠ "challenge" → t ≠ "page" →
        exceptIsOk (decodeFile raw) = false)
    ∧ (raw.type = some "standard" →
        (exceptIsOk (decodeFile raw) = true ↔
          raw.id.isSome = true ∧ raw.location.isSome = true ∧ raw.sha1sum.isSome = true))
    ∧ (raw.type = some "challenge" →
        (exceptIsOk (decodeFile raw) = true ↔
          raw.id.isSome = true ∧ raw.location.isSome = true ∧ raw.sha1sum.isSome = true
            ∧ (raw.challenge_id.isSome = true ∨ raw.challenge.isSome = true)))
    ∧ (raw.type = some "page" →
        (exceptIsOk (decodeFile raw) = true ↔
          raw.id.isSome = true ∧ raw.location.isSome = true ∧ raw.sha1sum.isSome = true
            ∧ (raw.page_id.isSome = true ∨ raw.page.isSome = true)))
    ∧ (∀ i l s c, raw.type = some "challenge" → raw.id = some i →
        raw.location = some l → raw.sha1sum = some s → raw.challenge_id = some c →
        decodeFile raw = .ok (.challenge i l s c))
    ∧ (∀ i l s c, raw.type = some "challenge" → raw.id = some i →
        raw.location = some l → raw.sha1sum = some s → raw.challenge_id = none →
        raw.challenge = some c → decodeFile raw = .ok (.challenge i l s c)) := by
  obtain ⟨ty, id, loc, sha, cid, ch, pid, pg⟩ := raw
  refine ⟨?_, ?_, ?_, ?_, ?_, ?_, ?_⟩
  · rintro rfl
    rfl
  · rintro t rfl h1 h2 h3
    unfold decodeFile
    split <;> simp_all [exceptIsOk]
  · rintro rfl
    cases id <;> cases loc <;> cases sha <;> simp [decodeFile, exceptIsOk]
  · rintro rfl
    cases id <;> cases loc <;> cases sha <;> cases cid <;> cases ch <;>
      simp [decodeFile, exceptIsOk, Option.orElse]
  · rintro rfl
    cases id <;> cases loc <;> cases sha <;> cases pid <;> cases pg <;>
      simp [decodeFile, exceptIsOk, Option.orElse]
  · rintro i l s c rfl rfl rfl rfl rfl
    rfl
  · rintro i l s c rfl rfl rfl rfl rfl rfl
    rfl

/-- C6 witness: with both `challenge_id` and `challenge` present, decoding
uses `challenge_id`. -/
theorem c6_decode_file_dispatch_witness :
    decodeFile rawChallengeBoth = .ok (.challenge 1 "loc" "sha" 2) :=
  (c6_decode_file_dispatch rawChallengeBoth).2.2.2.2.2.1 1 "loc" "sha" 2 rfl rfl rfl rfl rfl

/-- C7. Hint decoding tries the variants in the fixed precedence order
full `Hint`, `UnlockedHint`, `LockedHint`, returns the first variant whose
required-field set the raw object satisfies, and fails when no variant
matches. -/
theorem c7_decode_hint_precedence (r : RawHint) :
    (hintMatchesFull r = true → variantTag (decodeHint r) = some "hint")
    ∧ (hintMatchesFull r = false → hintMatchesUnlocked r = true →
        variantTag (decodeHint r) = some "unlocked_hint")
    ∧ (hintMatchesUnlocked r = false → hintMatchesLocked r = true →
        variantTag (decodeHint r) = some "locked_hint")
    ∧ (hintMatchesLocked r = false → variantTag (decodeHint r) = none) := by
  obtain ⟨i, t, ch, c, co, rq⟩ := r
  cases i <;> cases t <;> cases ch <;> cases c <;> cases co <;>
    simp [decodeHint, hintMatchesFull, hintMatchesUnlocked, hintMatchesLocked,
      variantTag, HintVariant.tag]

/-- C7 witness: a raw object satisfying the full shape decodes as the full
`Hint`. -/
theorem c7_decode_hint_precedence_witness :
    variantTag (decodeHint rawHintFull) = some "hint" :=
  (c7_decode_hint_precedence rawHintFull).1 rfl

/-- C8. Serializing a valid `CreateFilePayload` yields one multipart part
named `"file"` per supplied file in input order, and a form-field map
holding exactly the non-null scalar fields. -/
theorem c8_serialize_multipart (p : CreateFilePayload)
    (h : exceptIsOk (CreateFilePayload.validate p) = true) :
    (CreateFilePayload.to_payload p).1 = p.files.map (fun f => ("file", f))
    ∧ ("type", FormVal.s p.type.toWire) ∈ (CreateFilePayload.to_payload p).2
    ∧ (∀ c : Int, ("challenge_id", FormVal.i c) ∈ (CreateFilePayload.to_payload p).2 ↔
        p.challenge_id = some c)
    ∧ (∀ n : Int, ("page_id", FormVal.i n) ∈ (CreateFilePayload.to_payload p).2 ↔
        p.page_id = some n)
    ∧ (∀ l : String, ("location", FormVal.s l) ∈ (CreateFilePayload.to_payload p).2 ↔
        p.location = some l)
    ∧ (∀ k v, (k, v) ∈ (CreateFilePayload.to_payload p).2 →
        k = "type" ∨ k = "challenge_id" ∨ k = "page_id" ∨ k = "location") := by
  obtain ⟨files, ty, cid, pid, loc⟩ := p
  cases cid <;> cases pid <;> cases loc <;>
    simp [CreateFilePayload.to_payload, CreateFilePayload.model_ser] <;>
      aesop

/-- C8 witness: the scenario payload serializes to one part and the form
fields `type=challenge`, `challenge_id=1`. -/
theorem c8_serialize_multipart_witness :
    exceptIsOk (CreateFilePayload.validate payloadEx) = true
    ∧ (CreateFilePayload.to_payload payloadEx).1 = [("file", aFile)]
    ∧ ("challenge_id", FormVal.i 1) ∈ (CreateFilePayload.to_payload payloadEx).2 :=
  ⟨rfl, (c8_serialize_multipart payloadEx rfl).1,
    ((c8_serialize_multipart payloadEx rfl).2.2.1 1).mpr rfl⟩

end CTFdPy
